import Mathlib

/-!
Verification of the SyconApi client library (sycon_api.py) against its
natural-language specification.

The Python source is shallowly embedded: HTTP responses become a `Response`
structure, header dictionaries become association lists with dict-update
semantics, typed exceptions become the `ApiError` inductive, and the
network is a parameter (`HeaderMap → Nat → Response`, the `Nat` being the
attempt index so that retries can observe successive responses).  The
tenacity `@retry` decorator used on `_get_request`/`_post_request`
(`stop=stop_after_attempt(3)`, `retry=retry_if_exception_type(ServerError)`,
default `reraise=False`) is embedded by `send_with_retry`: a non-retryable
exception propagates at once, a retryable one is retried until the third
attempt, after which tenacity raises a `RetryError` wrapping the last
attempt's exception.
-/

namespace SyconApi

/-- The typed failures of sycon_api.py: `SyconApiMissingParametersException`,
`SyconApiInvalidParametersException`, `SyconApiBadResponseException`,
`SyconApiServerErrorResponseException`, plus tenacity's `RetryError`
(raised when retries are exhausted, wrapping the last attempt's error). -/
inductive ApiError where
  | missingParameters : ApiError
  | invalidParameters : ApiError
  | badResponse : ApiError
  | serverError : ApiError
  | retryError (last : ApiError) : ApiError
deriving DecidableEq, Repr

/-- Header / argument dictionaries: association lists, first component the key. -/
abbrev HeaderMap := List (String × String)

/-- `d[k] = v` for a Python dict: overwrite in place if the key exists,
else append. -/
def hset (d : HeaderMap) (k v : String) : HeaderMap :=
  if d.any (fun p => p.1 = k) then
    d.map (fun p => if p.1 = k then (k, v) else p)
  else
    d ++ [(k, v)]

/-- `d.get(k)` for a Python dict (first binding of `k`). -/
def hget (d : HeaderMap) (k : String) : Option String :=
  (d.find? (fun p => p.1 = k)).map (fun p => p.2)

/-- The JSON values the client manipulates after `response.json()`:
strings, objects (with string leaves, enough for the observed payloads)
and arrays of objects (the device list). -/
inductive PyVal where
  | str (v : String) : PyVal
  | dict (fields : List (String × String)) : PyVal
  | arr (elems : List (List (String × String))) : PyVal
deriving DecidableEq, Repr

/-- An HTTP response as observed by the client: status code, response
headers, the JSON body when `response.json()` succeeds (`none` models the
`ValueError` raised on an unparseable body), and the raw text. -/
structure Response where
  status : Nat
  headers : HeaderMap
  jsonBody : Option PyVal
  text : String
deriving DecidableEq, Repr

/-- Python `f"Bearer {token}"` applied to the `Optional[str]` token field:
`str(None)` is `"None"`. -/
def pyStr : Option String → String
  | none => "None"
  | some t => t

/-- `SyconApi._format_header_token`: sets
`headers["Authorization"] = f"Bearer {token}"`. -/
def format_header_token (token : String) (headers : HeaderMap) : HeaderMap :=
  hset headers "Authorization" ("Bearer " ++ token)

/-- `SyconApi._format_header_content_type_json`. -/
def format_header_content_type_json (headers : HeaderMap) : HeaderMap :=
  hset headers "Content-type" "application/json"

/-- Status classification shared by `_get_request` and `_post_request`:
5xx raises `SyconApiServerErrorResponseException`, 4xx raises
`SyconApiBadResponseException`, anything else is returned as-is. -/
def classify (rep : Response) : Except ApiError Response :=
  if 500 ≤ rep.status ∧ rep.status < 600 then .error .serverError
  else if 400 ≤ rep.status ∧ rep.status < 500 then .error .badResponse
  else .ok rep

/-- One tenacity-wrapped call.  `once i` is the outcome of attempt `i`
(`i` counted from 0); `fuel` is the number of attempts still allowed by
`stop_after_attempt`; `made` counts attempts already made.  Returns the
final outcome together with the total number of attempts.  A non-retryable
error propagates unchanged after the current attempt; a retryable
`serverError` is retried while attempts remain and otherwise surfaces as
`retryError serverError` (tenacity's default `reraise=False`). -/
def retryLoop (once : Nat → Except ApiError Response) :
    Nat → Nat → Except ApiError Response × Nat
  | 0, made => (.error (.retryError .serverError), made)
  | fuel + 1, made =>
    match once made with
    | .ok rep => (.ok rep, made + 1)
    | .error e =>
      if e = .serverError then
        if fuel = 0 then (.error (.retryError e), made + 1)
        else retryLoop once fuel (made + 1)
      else (.error e, made + 1)

/-- `stop_after_attempt(3)` in the decorators of `_get_request` and
`_post_request`. -/
def k_max_attempts : Nat := 3

/-- A tenacity-wrapped request against the response stream `once`
(`once i` is the wire response of attempt `i`): retry only on server
errors, at most `k_max_attempts` attempts in total.  The second component
is the number of wire calls actually made. -/
def send_retry (once : Nat → Response) : Except ApiError Response × Nat :=
  retryLoop (fun i => classify (once i)) k_max_attempts 0

/-- `SyconApi._get_request` (and `_post_request`, which classifies
identically): issue attempts against `net` with the given headers. -/
def send_with_retry (headers : HeaderMap) (net : HeaderMap → Nat → Response) :
    Except ApiError Response × Nat :=
  send_retry (net headers)

/-- Session state of a `SyconApi` instance: the credentials and the
`_token` field (`None` at construction). -/
structure Session where
  username : String
  password : String
  token : Option String
deriving DecidableEq, Repr

/-- `SyconApi.authenticate`: POST the credentials to the login route and,
when the status is 200, store `response.headers.get("Authorization")`
verbatim as the current token (this is `None` when the header is absent;
no exception is raised in that case).  Returns the updated session and the
number of network calls made. -/
def authenticate (net : HeaderMap → Nat → Response) (s : Session) :
    Except ApiError Session × Nat :=
  let headers := format_header_content_type_json []
  match send_with_retry headers net with
  | (.error e, n) => (.error e, n)
  | (.ok response, n) =>
    if response.status = 200 then
      (.ok { s with token := hget response.headers "Authorization" }, n)
    else (.ok s, n)

/-- The request headers built by `SyconApi.renew_token` (and identically by
`check_token`): an empty dict filled by `_format_header_token`, i.e. a
single `Authorization: Bearer <token>` entry. -/
def renew_request_headers (s : Session) : HeaderMap :=
  format_header_token (pyStr s.token) []

/-- `SyconApi.renew_token`: GET the renew route with the
`Authorization: Bearer <current token>` header; on a 200 response, raise
`SyconApiBadResponseException` when the `Authorization` response header is
absent, otherwise store its value as the current token. -/
def renew_token (net : HeaderMap → Nat → Response) (s : Session) :
    Except ApiError Session × Nat :=
  match send_with_retry (renew_request_headers s) net with
  | (.error e, n) => (.error e, n)
  | (.ok response, n) =>
    if response.status = 200 then
      match hget response.headers "Authorization" with
      | none => (.error .badResponse, n)
      | some a => (.ok { s with token := some a }, n)
    else (.ok s, n)

/-- `SyconApi.check_token`: GET the check route with the
`Authorization: Bearer <current token>` header and return
`bool(response.status_code == 200)`.  Errors raised by `_get_request`
(4xx ⇒ `SyconApiBadResponseException`, exhausted 5xx retries) propagate. -/
def check_token (net : HeaderMap → Nat → Response) (s : Session) :
    Except ApiError Bool × Nat :=
  match send_with_retry (renew_request_headers s) net with
  | (.error e, n) => (.error e, n)
  | (.ok response, n) => (.ok (decide (response.status = 200)), n)

/-- The three network endpoints that token management can touch: the
check route, the renew route and the login route.  Each maps the request
headers and the attempt index to the response. -/
structure TokenNets where
  netCheck : HeaderMap → Nat → Response
  netRenew : HeaderMap → Nat → Response
  netLogin : HeaderMap → Nat → Response

/-- `SyconApi._manage_token`: when a token is held, check it and renew on a
negative check; when no token is held, authenticate.  Exceptions from any
step propagate.  Returns the updated session and the number of network
calls made. -/
def manage_token (nets : TokenNets) (s : Session) :
    Except ApiError Session × Nat :=
  match s.token with
  | some _ =>
    match check_token nets.netCheck s with
    | (.error e, n) => (.error e, n)
    | (.ok true, n) => (.ok s, n)
    | (.ok false, n) =>
      match renew_token nets.netRenew s with
      | (r, m) => (r, n + m)
  | none => authenticate nets.netLogin s

/-- `SyconApi.k_size_batch_limit`. -/
def k_size_batch_limit : Int := 10000

/-- `SyconApi._raise_on_threshold_presence`: raise
`SyconApiMissingParametersException` when both limits are `None`, and
`SyconApiInvalidParametersException` when both are set. -/
def raise_on_threshold_presence (head_limit tail_limit : Option Int) :
    Except ApiError Unit :=
  if head_limit = none ∧ tail_limit = none then .error .missingParameters
  else if head_limit ≠ none ∧ tail_limit ≠ none then .error .invalidParameters
  else .ok ()

/-- Query-argument values: the `args` dict holds strings and ints. -/
inductive ArgVal where
  | s (v : String) : ArgVal
  | i (v : Int) : ArgVal
deriving DecidableEq, Repr

/-- Argument dictionaries built by `_fill_get_data_args`. -/
abbrev ArgMap := List (String × ArgVal)

/-- Dict update for `ArgMap` (same semantics as `hset`). -/
def aset (d : ArgMap) (k : String) (v : ArgVal) : ArgMap :=
  if d.any (fun p => p.1 = k) then
    d.map (fun p => if p.1 = k then (k, v) else p)
  else
    d ++ [(k, v)]

/-- `d.get(k)` on an `ArgMap`. -/
def aget (d : ArgMap) (k : String) : Option ArgVal :=
  (d.find? (fun p => p.1 = k)).map (fun p => p.2)

/-- `SyconApi._fill_get_data_args`: fill `args` with `start`, `end`, the
limit that is set (silently capped to `k_size_batch_limit`), and the
optional external sensor id, in that order. -/
def fill_get_data_args (args : ArgMap) (start_date end_date : String)
    (head_limit tail_limit : Option Int) (external_sensor_id : Option String) :
    ArgMap :=
  let args := aset args "start" (.s start_date)
  let args := aset args "end" (.s end_date)
  let args := match head_limit with
    | none => args
    | some h =>
      aset args "headLimit" (.i (if h > k_size_batch_limit then k_size_batch_limit else h))
  let args := match tail_limit with
    | none => args
    | some t =>
      aset args "tailLimit" (.i (if t > k_size_batch_limit then k_size_batch_limit else t))
  match external_sensor_id with
  | none => args
  | some e => aset args "externalSensorId" (.s e)

/-- The Unicode 14.0 decimal-digit (category Nd) code-point ranges.  This
is the character class Python's `re` module matches for `\d` in a `str`
pattern compiled without `re.ASCII`, as in
`_raise_on_date_ISO_8601_bad_format` — not just ASCII `0-9`. -/
def ndRanges : List (UInt32 × UInt32) :=
  [(48, 57), (1632, 1641), (1776, 1785), (1984, 1993), (2406, 2415),
   (2534, 2543), (2662, 2671), (2790, 2799), (2918, 2927), (3046, 3055),
   (3174, 3183), (3302, 3311), (3430, 3439), (3558, 3567), (3664, 3673),
   (3792, 3801), (3872, 3881), (4160, 4169), (4240, 4249), (6112, 6121),
   (6160, 6169), (6470, 6479), (6608, 6617), (6784, 6793), (6800, 6809),
   (6992, 7001), (7088, 7097), (7232, 7241), (7248, 7257), (42528, 42537),
   (43216, 43225), (43264, 43273), (43472, 43481), (43504, 43513),
   (43600, 43609), (44016, 44025), (65296, 65305), (66720, 66729),
   (68912, 68921), (69734, 69743), (69872, 69881), (69942, 69951),
   (70096, 70105), (70384, 70393), (70736, 70745), (70864, 70873),
   (71248, 71257), (71360, 71369), (71472, 71481), (71904, 71913),
   (72016, 72025), (72784, 72793), (73040, 73049), (73120, 73129),
   (92768, 92777), (92864, 92873), (93008, 93017), (120782, 120831),
   (123200, 123209), (123632, 123641), (125264, 125273), (130032, 130041)]

/-- The `\d` of the compiled instant regex: any Unicode decimal digit
(category Nd), since the pattern is a `str` pattern without `re.ASCII`. -/
def isPyDigit (c : Char) : Bool :=
  ndRanges.any (fun r => r.1 ≤ c.val && c.val ≤ r.2)

/-- Consume exactly `n` digit characters (`\d{n}`), returning the rest. -/
def takeDigits : Nat → List Char → Option (List Char)
  | 0, cs => some cs
  | _ + 1, [] => none
  | n + 1, c :: cs => if isPyDigit c then takeDigits n cs else none

/-- Consume one expected literal character. -/
def expectChar (c : Char) : List Char → Option (List Char)
  | [] => none
  | d :: cs => if d = c then some cs else none

/-- `\d*Z$`: zero or more digits followed by a final literal `Z`. -/
def digitsZ : List Char → Bool
  | [] => false
  | c :: cs => if cs = [] then decide (c = 'Z') else isPyDigit c && digitsZ cs

/-- `(?:\.\d+)?Z$`: either a final literal `Z`, or a dot, at least one
digit, and a final literal `Z`. -/
def tailZ : List Char → Bool
  | [] => false
  | [c] => decide (c = 'Z')
  | c :: c2 :: cs => decide (c = '.') && (isPyDigit c2 && digitsZ (c2 :: cs))

/-- The date prefix `\d{4}-\d{2}-\d{2}T\d{2}:\d{2}:\d{2}` of the instant
regex, as a consuming parser. -/
def isoPrefixMatch (cs : List Char) : Option (List Char) :=
  (takeDigits 4 cs).bind (expectChar '-') |>.bind (takeDigits 2)
    |>.bind (expectChar '-') |>.bind (takeDigits 2)
    |>.bind (expectChar 'T') |>.bind (takeDigits 2)
    |>.bind (expectChar ':') |>.bind (takeDigits 2)
    |>.bind (expectChar ':') |>.bind (takeDigits 2)

/-- `fullmatch` of the regex
`^\d{4}-\d{2}-\d{2}T\d{2}:\d{2}:\d{2}(?:\.\d+)?Z$` compiled in
`SyconApi._raise_on_date_ISO_8601_bad_format`. -/
def iso_instant_matches (date : String) : Bool :=
  match isoPrefixMatch date.data with
  | none => false
  | some rest => tailZ rest

/-- `SyconApi._raise_on_date_ISO_8601_bad_format`: raise
`SyconApiInvalidParametersException` unless the regex fullmatches. -/
def raise_on_date_ISO_8601_bad_format (date : String) : Except ApiError Unit :=
  if iso_instant_matches date then .ok () else .error .invalidParameters

/-- A bounded least-recently-used cache: entries in most-recently-used
first order, as maintained by `functools.lru_cache`. -/
structure LruCache (κ ρ : Type) where
  entries : List (κ × ρ)
deriving Repr

/-- `functools.lru_cache(maxsize)` wrapping `f`, called at key `k`: on a
hit, return the cached value, refresh its recency and make no underlying
call; on a miss, call `f`, insert the result as most recent and drop the
least-recently-used entry beyond `maxsize`.  The last component counts
calls to `f` (0 or 1). -/
def cachedCall {κ ρ : Type} [DecidableEq κ] (maxsize : Nat) (f : κ → ρ)
    (c : LruCache κ ρ) (k : κ) : ρ × LruCache κ ρ × Nat :=
  match c.entries.find? (fun p => p.1 = k) with
  | some p => (p.2, ⟨(k, p.2) :: c.entries.filter (fun q => q.1 ≠ k)⟩, 0)
  | none =>
    let v := f k
    (v, ⟨((k, v) :: c.entries).take maxsize⟩, 1)

/-- `lru_cache(maxsize=10)` on the data-query methods. -/
def k_cache_maxsize : Nat := 10

/-- The parameters of a single-device data query, exactly the memoized
argument tuple of `SyconApi.get_data_from_device`. -/
structure DataQuery where
  device_id : String
  field : String
  start_date : String
  end_date : String
  head_limit : Option Int
  tail_limit : Option Int
  external_sensor_id : Option String
deriving DecidableEq, Repr

/-- `body = response.json()` with the `except ValueError: body =
response.text` fallback of the data-query methods. -/
def responseBody (rep : Response) : PyVal :=
  match rep.jsonBody with
  | some v => v
  | none => .str rep.text

/-- The network environment of a data query: the three token-management
routes plus the data route, the latter keyed by the request headers and
the query arguments (the device id and field are part of the URL, hence of
the query key already). -/
structure DataEnv where
  tokenNets : TokenNets
  netData : DataQuery → HeaderMap → ArgMap → Nat → Response

/-- The body of `SyconApi.get_data_from_device` (inside the `lru_cache`):
validate the limits and both instants, fill the argument dict, manage the
token, then issue the data request with a bearer header and return the
parsed body when it is a dict and `None` otherwise.  Results: outcome, the
session after the call, wire calls made by token management, wire calls
made on the data route. -/
def get_data_from_device_run (env : DataEnv) (s : Session) (q : DataQuery) :
    Except ApiError (Option PyVal) × Session × Nat × Nat :=
  match raise_on_threshold_presence q.head_limit q.tail_limit with
  | .error e => (.error e, s, 0, 0)
  | .ok () =>
  match raise_on_date_ISO_8601_bad_format q.start_date with
  | .error e => (.error e, s, 0, 0)
  | .ok () =>
  match raise_on_date_ISO_8601_bad_format q.end_date with
  | .error e => (.error e, s, 0, 0)
  | .ok () =>
  let args := fill_get_data_args [] q.start_date q.end_date q.head_limit
    q.tail_limit q.external_sensor_id
  match manage_token env.tokenNets s with
  | (.error e, n) => (.error e, s, n, 0)
  | (.ok s1, n) =>
    let headers := format_header_token (pyStr s1.token) []
    match send_retry (env.netData q headers args) with
    | (.error e, m) => (.error e, s1, n, m)
    | (.ok rep, m) =>
      let result : Option PyVal :=
        match responseBody rep with
        | .dict fields => some (.dict fields)
        | _ => none
      (.ok result, s1, n, m)

/-- `SyconApi.get_data_from_device` with its `@lru_cache(maxsize=10)`:
on a cached key, return the memoized result with no network activity and
refresh the entry's recency; on a miss, run the method body and memoize a
successful result (`lru_cache` does not cache a raised exception).
Results: outcome, session, cache, token-route wire calls, data-route wire
calls. -/
def get_data_from_device_memo (env : DataEnv) (s : Session)
    (c : LruCache DataQuery (Option PyVal)) (q : DataQuery) :
    Except ApiError (Option PyVal) × Session × LruCache DataQuery (Option PyVal)
      × Nat × Nat :=
  match c.entries.find? (fun p => p.1 = q) with
  | some p =>
    (.ok p.2, s, ⟨(q, p.2) :: c.entries.filter (fun e => e.1 ≠ q)⟩, 0, 0)
  | none =>
    match get_data_from_device_run env s q with
    | (.ok v, s1, n, m) =>
      (.ok v, s1, ⟨((q, v) :: c.entries).take k_cache_maxsize⟩, n, m)
    | (.error e, s1, n, m) => (.error e, s1, c, n, m)

/-- A device record of the device list (a JSON object with string
leaves). -/
abbrev DeviceRecord := List (String × String)

/-- Dict update on the accumulated `data` result of the batch queries. -/
def dsetV (d : List (String × PyVal)) (k : String) (v : PyVal) :
    List (String × PyVal) :=
  if d.any (fun p => p.1 = k) then
    d.map (fun p => if p.1 = k then (k, v) else p)
  else
    d ++ [(k, v)]

/-- One per-device data request of the batch loops: build the bearer
header, issue the retried GET and extract the body with the raw-text
fallback.  A transport failure propagates. -/
def fetch_device_body (net : String → HeaderMap → Nat → Response)
    (token : Option String) (device_id : String) : Except ApiError PyVal :=
  let headers := format_header_token (pyStr token) []
  match send_retry (net device_id headers) with
  | (.error e, _) => .error e
  | (.ok rep, _) => .ok (responseBody rep)

/-- The device loop of `SyconApi.get_data_from_all_devices` (source lines
558–583): skip any record without an `"id"` key; for a record with one,
issue one data request and store the body under the id; a transport
failure aborts the remaining loop.  The `Nat` counts data requests
issued. -/
def all_devices_loop (net : String → HeaderMap → Nat → Response)
    (token : Option String) :
    List DeviceRecord → List (String × PyVal) →
      Except ApiError (List (String × PyVal)) × Nat
  | [], data => (.ok data, 0)
  | device :: rest, data =>
    match hget device "id" with
    | none => all_devices_loop net token rest data
    | some device_id =>
      match fetch_device_body net token device_id with
      | .error e => (.error e, 1)
      | .ok body =>
        match all_devices_loop net token rest (dsetV data device_id body) with
        | (r, n) => (r, n + 1)

/-- The character contribution of the optional fractional-seconds part of
the spec's instant form: nothing, or a dot followed by the digits. -/
def fracPart : Option (List Char) → List Char
  | none => []
  | some f => '.' :: f

/-- The spec's strict ISO-8601 UTC instant form
`YYYY-MM-DDTHH:MM:SS[.fraction]Z`, stated from the spec's words (not from
the code): four digits, dash, two digits, dash, two digits, literal `T`,
three colon-separated two-digit groups, an optional dot-plus-digits
fractional part, and a literal trailing `Z`. -/
def SpecIsoInstant (s : String) : Prop :=
  ∃ (y mo d h mi sec : List Char) (frac : Option (List Char)),
    y.length = 4 ∧ mo.length = 2 ∧ d.length = 2 ∧
    h.length = 2 ∧ mi.length = 2 ∧ sec.length = 2 ∧
    (∀ c ∈ y, c.isDigit = true) ∧ (∀ c ∈ mo, c.isDigit = true) ∧
    (∀ c ∈ d, c.isDigit = true) ∧ (∀ c ∈ h, c.isDigit = true) ∧
    (∀ c ∈ mi, c.isDigit = true) ∧ (∀ c ∈ sec, c.isDigit = true) ∧
    (∀ f, frac = some f → f ≠ [] ∧ ∀ c ∈ f, c.isDigit = true) ∧
    s.data = y ++ ['-'] ++ mo ++ ['-'] ++ d ++ ['T'] ++ h ++ [':'] ++ mi
      ++ [':'] ++ sec ++ fracPart frac ++ ['Z']

/-- The instant shape the code actually accepts: the same
`YYYY-MM-DDTHH:MM:SS[.fraction]Z` skeleton as `SpecIsoInstant`, but with
every digit position holding any Unicode decimal digit (`isPyDigit`), as
Python's `\d` does on a `str` pattern — a strictly wider set than the
spec's ASCII-digit form. -/
def PyIsoInstant (s : String) : Prop :=
  ∃ (y mo d h mi sec : List Char) (frac : Option (List Char)),
    y.length = 4 ∧ mo.length = 2 ∧ d.length = 2 ∧
    h.length = 2 ∧ mi.length = 2 ∧ sec.length = 2 ∧
    (∀ c ∈ y, isPyDigit c = true) ∧ (∀ c ∈ mo, isPyDigit c = true) ∧
    (∀ c ∈ d, isPyDigit c = true) ∧ (∀ c ∈ h, isPyDigit c = true) ∧
    (∀ c ∈ mi, isPyDigit c = true) ∧ (∀ c ∈ sec, isPyDigit c = true) ∧
    (∀ f, frac = some f → f ≠ [] ∧ ∀ c ∈ f, isPyDigit c = true) ∧
    s.data = y ++ ['-'] ++ mo ++ ['-'] ++ d ++ ['T'] ++ h ++ [':'] ++ mi
      ++ [':'] ++ sec ++ fracPart frac ++ ['Z']

/-- The memoized argument tuple of `SyconApi.get_data_from_devices`: the
tuple of device ids plus the shared query parameters. -/
structure DevicesQuery where
  devices_id : List String
  field : String
  start_date : String
  end_date : String
  head_limit : Option Int
  tail_limit : Option Int
  external_sensor_id : Option String
deriving DecidableEq, Repr

/-- The per-device loop of `SyconApi.get_data_from_devices`: one bearer
GET per device id, in order, storing the parsed-or-raw body under
`str(device_id)`; a transport failure aborts the remaining loop.  The
`Nat` counts wire calls. -/
def devices_data_loop (net : String → HeaderMap → ArgMap → Nat → Response)
    (token : Option String) (args : ArgMap) :
    List String → List (String × PyVal) →
      Except ApiError (List (String × PyVal)) × Nat
  | [], data => (.ok data, 0)
  | device_id :: rest, data =>
    let headers := format_header_token (pyStr token) []
    match send_retry (net device_id headers args) with
    | (.error e, m) => (.error e, m)
    | (.ok rep, m) =>
      match devices_data_loop net token args rest
        (dsetV data device_id (responseBody rep)) with
      | (r, k) => (r, m + k)

/-- The body of `SyconApi.get_data_from_devices` (inside the
`lru_cache`): the same validation, argument filling and token management
as the single-device query, then the per-device loop.  Results: outcome,
session after the call, token-route wire calls, data-route wire calls. -/
def get_data_from_devices_run (env : DataEnv)
    (netDev : String → HeaderMap → ArgMap → Nat → Response) (s : Session)
    (q : DevicesQuery) :
    Except ApiError (List (String × PyVal)) × Session × Nat × Nat :=
  match raise_on_threshold_presence q.head_limit q.tail_limit with
  | .error e => (.error e, s, 0, 0)
  | .ok () =>
  match raise_on_date_ISO_8601_bad_format q.start_date with
  | .error e => (.error e, s, 0, 0)
  | .ok () =>
  match raise_on_date_ISO_8601_bad_format q.end_date with
  | .error e => (.error e, s, 0, 0)
  | .ok () =>
  let args := fill_get_data_args [] q.start_date q.end_date q.head_limit
    q.tail_limit q.external_sensor_id
  match manage_token env.tokenNets s with
  | (.error e, n) => (.error e, s, n, 0)
  | (.ok s1, n) =>
    match devices_data_loop netDev s1.token args q.devices_id [] with
    | (r, m) => (r, s1, n, m)

/-- A bare response with the given status and no headers or body. -/
def plainResponse (st : Nat) : Response :=
  { status := st, headers := [], jsonBody := none, text := "" }

/-- A network answering every request, at every attempt, with the same
response. -/
def constNet (r : Response) : HeaderMap → Nat → Response := fun _ _ => r

/-- A sample session holding the token `"tok"`. -/
def sampleSession : Session :=
  { username := "u", password := "p", token := some "tok" }

/-- A sample freshly-constructed session (no token yet). -/
def sampleUnauthSession : Session :=
  { username := "u", password := "p", token := none }

/-- A 200 response carrying a small JSON object. -/
def dictResponse : Response :=
  { status := 200, headers := [], jsonBody := some (.dict [("k", "v")]),
    text := "" }

/-- A sample data-query environment: every token route and the data route
answer 200, the data route with a small JSON object. -/
def sampleDataEnv : DataEnv :=
  { tokenNets :=
      { netCheck := constNet (plainResponse 200)
        netRenew := constNet (plainResponse 200)
        netLogin := constNet (plainResponse 200) }
    netData := fun _ _ _ _ => dictResponse }

/-- A sample well-formed single-device query. -/
def sampleQuery : DataQuery :=
  { device_id := "d1", field := "TEMPERATURE_CELSIUS",
    start_date := "2025-10-03T12:30:00Z", end_date := "2025-10-03T13:30:00Z",
    head_limit := some 1, tail_limit := none, external_sensor_id := none }

/-- `sampleQuery` with one parameter (the device id) changed. -/
def sampleQuery2 : DataQuery :=
  { sampleQuery with device_id := "d2" }

end SyconApi

open SyconApi

/-- Helper: a 5xx response classifies as a server error. -/
theorem classify_server (r : Response) (h1 : 500 ≤ r.status)
    (h2 : r.status < 600) : classify r = .error .serverError := by
  simp [classify, h1, h2]

/-- Helper: a 4xx response classifies as a bad response. -/
theorem classify_bad (r : Response) (h1 : 400 ≤ r.status)
    (h2 : r.status < 500) : classify r = .error .badResponse := by
  have : ¬ (500 ≤ r.status ∧ r.status < 600) := by omega
  simp [classify, this, h1, h2]

/-- Helper: when every attempt in the window yields a server error, the
retry loop exhausts its fuel and surfaces tenacity's `RetryError`. -/
theorem retryLoop_all_server (once : Nat → Except ApiError Response) :
    ∀ fuel made, 0 < fuel →
    (∀ i, made ≤ i → i < made + fuel → once i = .error .serverError) →
    retryLoop once fuel made = (.error (.retryError .serverError), made + fuel)
  | 0, _, hf, _ => absurd hf (by omega)
  | fuel + 1, made, _, h => by
    rw [retryLoop, h made (by omega) (by omega)]
    by_cases hz : fuel = 0
    · subst hz; simp
    · have := retryLoop_all_server once fuel (made + 1) (by omega)
        (fun i h1 h2 => h i (by omega) (by omega))
      simp [hz, this]
      try omega

/-- C1.  The claim says `check_token()` returns `False` on a 401 response
without raising; the code instead raises
`SyconApiBadResponseException` from `_get_request` (which classifies every
4xx as an error before `check_token` can compare the status), so on a 401
the boolean `False` is never returned. -/
theorem C1_check_token_raises_on_401 :
    check_token (constNet (plainResponse 401)) sampleSession
      = (.error .badResponse, 1)
    ∧ (check_token (constNet (plainResponse 401)) sampleSession).1
        ≠ .ok false := by
  refine ⟨rfl, ?_⟩
  intro h
  exact Except.noConfusion h

/-- C2 (counterexample).  Against a network that answers 503 forever, the
retry-wrapped GET does make 3 attempts, but what propagates is tenacity's
`RetryError` wrapping the final server error — not the
`SyconApiServerErrorResponseException` itself (the decorators do not set
`reraise=True`). -/
theorem C2_counterexample :
    send_retry (fun _ => plainResponse 503)
      = (.error (.retryError .serverError), 3)
    ∧ (send_retry (fun _ => plainResponse 503)).1
        ≠ (.error .serverError : Except ApiError Response) := by
  refine ⟨rfl, ?_⟩
  intro h
  rw [show (send_retry (fun _ => plainResponse 503)).1
      = .error (.retryError .serverError) from rfl] at h
  exact absurd (Except.error.inj h) (by intro h2; exact ApiError.noConfusion h2)

/-- C2 (amended).  A request whose attempts all hit 5xx is tried exactly
3 times (1 initial + 2 retries) and then fails with tenacity's
`RetryError` wrapping the last `ServerError`; a 4xx on the first attempt
fails with `BadResponse` after exactly 1 attempt, with no retry. -/
theorem C2_retry_policy (net : Nat → Response) :
    ((∀ i, i < 3 → 500 ≤ (net i).status ∧ (net i).status < 600) →
      send_retry net = (.error (.retryError .serverError), 3))
    ∧ (400 ≤ (net 0).status ∧ (net 0).status < 500 →
      send_retry net = (.error .badResponse, 1)) := by
  constructor
  · intro h
    have := retryLoop_all_server (fun i => classify (net i)) 3 0 (by omega)
      (fun i h1 h2 => classify_server (net i) (h i (by omega)).1 (h i (by omega)).2)
    simpa [send_retry, k_max_attempts] using this
  · intro h
    have hc : classify (net 0) = .error .badResponse := classify_bad (net 0) h.1 h.2
    simp only [send_retry, k_max_attempts]
    rw [show (3 : Nat) = 2 + 1 from rfl, retryLoop, hc]
    simp

/-- C2 witness: the amended retry policy evaluated against a constant-503
network and a constant-404 network. -/
theorem C2_retry_policy_witness :
    send_retry (fun _ => plainResponse 503)
      = (.error (.retryError .serverError), 3)
    ∧ send_retry (fun _ => plainResponse 404) = (.error .badResponse, 1) :=
  ⟨(C2_retry_policy (fun _ => plainResponse 503)).1 (by decide),
   (C2_retry_policy (fun _ => plainResponse 404)).2 (by decide)⟩

/-- C3 (counterexample).  `authenticate()` receiving a 200 response with
no `Authorization` header does not fail with `BadResponse` (unlike
`renew_token`, it performs no header-presence check): it completes
normally, storing `None`. -/
theorem C3_counterexample :
    authenticate (constNet (plainResponse 200)) sampleUnauthSession
      = (.ok sampleUnauthSession, 1)
    ∧ (authenticate (constNet (plainResponse 200)) sampleUnauthSession).1
        ≠ .error .badResponse := by
  refine ⟨rfl, ?_⟩
  intro h
  exact Except.noConfusion h

/-- C3 (amended).  When the login POST succeeds with status 200 but the
`Authorization` header is absent, `authenticate()` completes without
raising and sets the token field to `None`: the session is left
Unauthenticated, and no present-but-bogus token is ever stored. -/
theorem C3_authenticate_absent_header (net : HeaderMap → Nat → Response)
    (s : Session) (r : Response) (n : Nat)
    (hsend : send_with_retry (format_header_content_type_json []) net = (.ok r, n))
    (hst : r.status = 200) (hauth : hget r.headers "Authorization" = none) :
    authenticate net s = (.ok { s with token := none }, n) := by
  simp [authenticate, hsend, hst, hauth]

/-- C3 witness: the amended statement at a concrete 200-without-header
network, starting from the fresh session. -/
theorem C3_authenticate_absent_header_witness :
    authenticate (constNet (plainResponse 200)) sampleUnauthSession
      = (.ok { sampleUnauthSession with token := none }, 1) :=
  C3_authenticate_absent_header (constNet (plainResponse 200))
    sampleUnauthSession (plainResponse 200) 1 rfl rfl rfl

/-- C4 (counterexample).  For the session holding token `"tok"`, the
headers `renew_token` sends are exactly `Authorization: Bearer tok`; no
`Renew` request header is present, contradicting the claim that the token
travels in a `Renew: <token>` header. -/
theorem C4_counterexample :
    renew_request_headers sampleSession = [("Authorization", "Bearer tok")]
    ∧ hget (renew_request_headers sampleSession) "Renew" = none :=
  ⟨rfl, rfl⟩

/-- C4 (amended).  With a current token `t`, `renew_token` GETs the renew
route carrying `t` in an `Authorization: Bearer <t>` request header (not a
`Renew` header); on a 200 response it replaces the current token with the
value of the response's `Authorization` header, and fails with
`BadResponse` when that header is absent. -/
theorem C4_renew_token_behaviour (s : Session) (t : String)
    (net : HeaderMap → Nat → Response) (r : Response) (n : Nat)
    (htok : s.token = some t)
    (hsend : send_with_retry (renew_request_headers s) net = (.ok r, n))
    (hst : r.status = 200) :
    renew_request_headers s = [("Authorization", "Bearer " ++ t)]
    ∧ (hget r.headers "Authorization" = none →
        renew_token net s = (.error .badResponse, n))
    ∧ (∀ a, hget r.headers "Authorization" = some a →
        renew_token net s = (.ok { s with token := some a }, n)) := by
  refine ⟨?_, ?_, ?_⟩
  · simp [renew_request_headers, format_header_token, pyStr, htok, hset]
  · intro hnone
    simp [renew_token, hsend, hst, hnone]
  · intro a ha
    simp [renew_token, hsend, hst, ha]

/-- C6.  Limit validation: both limits absent fails with
`MissingParameters`; both present fails with `InvalidParameters`;
otherwise the one limit that is set is sent, unchanged when it is at most
the ceiling 10000, and as exactly 10000 when it is strictly above — never
rejected. -/
theorem C6_limit_validation (head tail : Option Int) (sd ed : String)
    (ext : Option String) :
    (head = none → tail = none →
      raise_on_threshold_presence head tail = .error .missingParameters)
    ∧ (∀ hv tv, head = some hv → tail = some tv →
      raise_on_threshold_presence head tail = .error .invalidParameters)
    ∧ (∀ hv, head = some hv → tail = none →
      raise_on_threshold_presence head tail = .ok ()
      ∧ (hv ≤ k_size_batch_limit →
          aget (fill_get_data_args [] sd ed head tail ext) "headLimit"
            = some (.i hv))
      ∧ (k_size_batch_limit < hv →
          aget (fill_get_data_args [] sd ed head tail ext) "headLimit"
            = some (.i k_size_batch_limit))
      ∧ aget (fill_get_data_args [] sd ed head tail ext) "tailLimit" = none)
    ∧ (∀ tv, head = none → tail = some tv →
      raise_on_threshold_presence head tail = .ok ()
      ∧ (tv ≤ k_size_batch_limit →
          aget (fill_get_data_args [] sd ed head tail ext) "tailLimit"
            = some (.i tv))
      ∧ (k_size_batch_limit < tv →
          aget (fill_get_data_args [] sd ed head tail ext) "tailLimit"
            = some (.i k_size_batch_limit))
      ∧ aget (fill_get_data_args [] sd ed head tail ext) "headLimit" = none) := by
  refine ⟨?_, ?_, ?_, ?_⟩
  · intro h1 h2; simp [raise_on_threshold_presence, h1, h2]
  · intro hv tv h1 h2; simp [raise_on_threshold_presence, h1, h2]
  · intro hv h1 h2
    subst h1; subst h2
    refine ⟨by simp [raise_on_threshold_presence], ?_, ?_, ?_⟩
    · intro hle
      have : ¬ hv > k_size_batch_limit := by omega
      cases ext <;> simp [fill_get_data_args, aset, aget, this]
    · intro hgt
      have : hv > k_size_batch_limit := hgt
      cases ext <;> simp [fill_get_data_args, aset, aget, this]
    · cases ext <;> simp [fill_get_data_args, aset, aget]
  · intro tv h1 h2
    subst h1; subst h2
    refine ⟨by simp [raise_on_threshold_presence], ?_, ?_, ?_⟩
    · intro hle
      have : ¬ tv > k_size_batch_limit := by omega
      cases ext <;> simp [fill_get_data_args, aset, aget, this]
    · intro hgt
      have : tv > k_size_batch_limit := hgt
      cases ext <;> simp [fill_get_data_args, aset, aget, this]
    · cases ext <;> simp [fill_get_data_args, aset, aget]

/-- C6 witness: the validator and argument filling evaluated at each
shape of limit arguments, including a value above the 10000 ceiling. -/
theorem C6_limit_validation_witness :
    raise_on_threshold_presence none none = .error .missingParameters
    ∧ raise_on_threshold_presence (some 1) (some 2) = .error .invalidParameters
    ∧ aget (fill_get_data_args [] "s" "e" (some 10100) none none) "headLimit"
        = some (.i 10000)
    ∧ aget (fill_get_data_args [] "s" "e" none (some 42) none) "tailLimit"
        = some (.i 42) := by
  refine ⟨(C6_limit_validation none none "s" "e" none).1 rfl rfl,
    (C6_limit_validation (some 1) (some 2) "s" "e" none).2.1 1 2 rfl rfl,
    ?_, ?_⟩
  · have h := ((C6_limit_validation (some 10100) none "s" "e" none).2.2.1
      10100 rfl rfl).2.2.1 (by decide)
    simpa [k_size_batch_limit] using h
  · exact ((C6_limit_validation none (some 42) "s" "e" none).2.2.2
      42 rfl rfl).2.1 (by decide)

/-- C10.  Both `authenticate()` and `renew_token()` store the verbatim
value of the `Authorization` response header, stripping nothing, and every
outbound authenticated request sends `Authorization: Bearer <stored
token>`; hence a login or renew response whose `Authorization` value
already begins with `Bearer ` makes every later request carry a doubled
`Bearer Bearer ` prefix. -/
theorem C10_verbatim_token_double_bearer (s : Session)
    (net : HeaderMap → Nat → Response) (r : Response) (n : Nat)
    (a x : String) (hst : r.status = 200)
    (ha : hget r.headers "Authorization" = some a) :
    (send_with_retry (format_header_content_type_json []) net = (.ok r, n) →
      authenticate net s = (.ok { s with token := some a }, n))
    ∧ (send_with_retry (renew_request_headers s) net = (.ok r, n) →
      renew_token net s = (.ok { s with token := some a }, n))
    ∧ format_header_token a [] = [("Authorization", "Bearer " ++ a)]
    ∧ (a = "Bearer " ++ x →
      format_header_token a [] = [("Authorization", "Bearer Bearer " ++ x)]) := by
  refine ⟨?_, ?_, ?_, ?_⟩
  · intro hsend; simp [authenticate, hsend, hst, ha]
  · intro hsend; simp [renew_token, hsend, hst, ha]
  · simp [format_header_token, hset]
  · intro hx
    subst hx
    rw [format_header_token, hset, ← String.append_assoc]
    rfl

/-- C10 witness: a login whose `Authorization` header is
`Bearer abc` is stored verbatim, and the next outbound header doubles the
prefix: `Bearer Bearer abc`. -/
theorem C10_verbatim_token_double_bearer_witness :
    authenticate
      (constNet { status := 200, headers := [("Authorization", "Bearer abc")],
                  jsonBody := none, text := "" }) sampleUnauthSession
      = (.ok { sampleUnauthSession with token := some "Bearer abc" }, 1)
    ∧ format_header_token "Bearer abc" []
        = [("Authorization", "Bearer Bearer abc")] := by
  have h := C10_verbatim_token_double_bearer sampleUnauthSession
    (constNet { status := 200, headers := [("Authorization", "Bearer abc")],
                jsonBody := none, text := "" })
    { status := 200, headers := [("Authorization", "Bearer abc")],
      jsonBody := none, text := "" } 1 "Bearer abc" "abc" rfl rfl
  exact ⟨h.1 rfl, by simpa using h.2.2.2 rfl⟩

/-- C4 witness: the amended statement against a network answering 200
with a fresh `Authorization: tok2` header, from the session holding
`"tok"`. -/
theorem C4_renew_token_behaviour_witness :
    renew_request_headers sampleSession = [("Authorization", "Bearer tok")]
    ∧ renew_token
        (constNet { status := 200, headers := [("Authorization", "tok2")],
                    jsonBody := none, text := "" }) sampleSession
      = (.ok { sampleSession with token := some "tok2" }, 1) := by
  have h := C4_renew_token_behaviour sampleSession "tok"
    (constNet { status := 200, headers := [("Authorization", "tok2")],
                jsonBody := none, text := "" })
    { status := 200, headers := [("Authorization", "tok2")],
      jsonBody := none, text := "" } 1 rfl rfl rfl
  exact ⟨h.1, h.2.2 "tok2" rfl⟩

/-- C5.  The memoized single-device query: a first issue of a query not
in the cache runs the method body (here performing exactly one data-route
network call); the identical query issued again is served from the cache
with zero further network calls; the query with one parameter changed runs
the body again and performs a second data-route network call; and the
cache stays bounded by 10 entries throughout. -/
theorem C5_query_cache (env : DataEnv) (s s1 s2 : Session)
    (c : LruCache DataQuery (Option PyVal)) (q q2 : DataQuery)
    (v v2 : Option PyVal) (n n2 : Nat)
    (hmiss : ∀ p ∈ c.entries, p.1 ≠ q)
    (hmiss2 : ∀ p ∈ c.entries, p.1 ≠ q2)
    (hne : q2 ≠ q)
    (hrun : get_data_from_device_run env s q = (.ok v, s1, n, 1))
    (hrun2 : get_data_from_device_run env s1 q2 = (.ok v2, s2, n2, 1)) :
    get_data_from_device_memo env s c q
      = (.ok v, s1, ⟨((q, v) :: c.entries).take k_cache_maxsize⟩, n, 1)
    ∧ get_data_from_device_memo env s1
        ⟨((q, v) :: c.entries).take k_cache_maxsize⟩ q
      = (.ok v, s1,
         ⟨(q, v) :: (((q, v) :: c.entries).take k_cache_maxsize).filter
           (fun e => e.1 ≠ q)⟩, 0, 0)
    ∧ get_data_from_device_memo env s1
        ⟨((q, v) :: c.entries).take k_cache_maxsize⟩ q2
      = (.ok v2, s2,
         ⟨((q2, v2) :: ((q, v) :: c.entries).take k_cache_maxsize).take
           k_cache_maxsize⟩, n2, 1)
    ∧ (((q, v) :: c.entries).take k_cache_maxsize).length ≤ k_cache_maxsize
    ∧ (((q2, v2) :: ((q, v) :: c.entries).take k_cache_maxsize).take
        k_cache_maxsize).length ≤ k_cache_maxsize
    ∧ ((q, v) :: (((q, v) :: c.entries).take k_cache_maxsize).filter
        (fun e => e.1 ≠ q)).length ≤ k_cache_maxsize := by
  have hfind : c.entries.find? (fun p => p.1 = q) = none := by
    rw [List.find?_eq_none]
    intro p hp
    simpa using hmiss p hp
  have htake : ((q, v) :: c.entries).take k_cache_maxsize
      = (q, v) :: c.entries.take 9 := rfl
  have hfind2 : (((q, v) :: c.entries).take k_cache_maxsize).find?
      (fun p => p.1 = q2) = none := by
    rw [List.find?_eq_none]
    intro p hp
    rw [htake] at hp
    rcases List.mem_cons.1 hp with h | h
    · subst h; simpa using hne.symm
    · have := hmiss2 p (List.mem_of_mem_take h)
      simpa using this
  refine ⟨?_, ?_, ?_, ?_, ?_, ?_⟩
  · simp [get_data_from_device_memo, hfind, hrun]
  · rw [get_data_from_device_memo, htake]
    simp
  · rw [get_data_from_device_memo, hfind2, hrun2]
  · exact List.length_take_le _ _
  · exact List.length_take_le _ _
  · rw [htake]
    have hlen : (c.entries.take 9).length ≤ 9 := List.length_take_le _ _
    have hf : ((q, v) :: c.entries.take 9).filter (fun e => e.1 ≠ q)
        = (c.entries.take 9).filter (fun e => e.1 ≠ q) := by
      simp [List.filter_cons]
    rw [hf]
    have hb : ((c.entries.take 9).filter (fun e => e.1 ≠ q)).length ≤ 9 :=
      le_trans (List.length_filter_le _ _) hlen
    simpa [k_cache_maxsize] using Nat.succ_le_succ hb

/-- C5 witness: from the empty cache, the sample query runs once (one
token call, one data call), its repeat is a pure cache hit (zero calls),
and changing the device id runs the body again (a second data call). -/
theorem C5_query_cache_witness :
    get_data_from_device_memo sampleDataEnv sampleSession ⟨[]⟩ sampleQuery
      = (.ok (some (.dict [("k", "v")])), sampleSession,
         ⟨[(sampleQuery, some (.dict [("k", "v")]))]⟩, 1, 1)
    ∧ get_data_from_device_memo sampleDataEnv sampleSession
        ⟨[(sampleQuery, some (.dict [("k", "v")]))]⟩ sampleQuery
      = (.ok (some (.dict [("k", "v")])), sampleSession,
         ⟨[(sampleQuery, some (.dict [("k", "v")]))]⟩, 0, 0)
    ∧ get_data_from_device_memo sampleDataEnv sampleSession
        ⟨[(sampleQuery, some (.dict [("k", "v")]))]⟩ sampleQuery2
      = (.ok (some (.dict [("k", "v")])), sampleSession,
         ⟨[(sampleQuery2, some (.dict [("k", "v")])),
           (sampleQuery, some (.dict [("k", "v")]))]⟩, 1, 1) := by
  have h := C5_query_cache sampleDataEnv sampleSession sampleSession
    sampleSession ⟨[]⟩ sampleQuery sampleQuery2
    (some (.dict [("k", "v")])) (some (.dict [("k", "v")])) 1 1
    (by simp) (by simp) (by decide) rfl rfl
  refine ⟨?_, ?_, ?_⟩
  · simpa [k_cache_maxsize] using h.1
  · have h2 := h.2.1
    simpa [k_cache_maxsize, sampleQuery] using h2
  · have h3 := h.2.2.1
    simpa [k_cache_maxsize] using h3

/-- C8.  For both data-query dispatchers, a parameter-validation failure
(both limits absent, both present, or a malformed start or end instant) is
raised as its typed error with zero network calls on any route, before
token management runs, and the session — hence the current token — is
returned unchanged. -/
theorem C8_validation_fail_fast (env : DataEnv)
    (netDev : String → HeaderMap → ArgMap → Nat → Response) (s : Session)
    (q : DataQuery) (qs : DevicesQuery) :
    (∀ e, raise_on_threshold_presence q.head_limit q.tail_limit = .error e →
      get_data_from_device_run env s q = (.error e, s, 0, 0))
    ∧ (iso_instant_matches q.start_date = false →
       raise_on_threshold_presence q.head_limit q.tail_limit = .ok () →
      get_data_from_device_run env s q = (.error .invalidParameters, s, 0, 0))
    ∧ (iso_instant_matches q.start_date = true →
       iso_instant_matches q.end_date = false →
       raise_on_threshold_presence q.head_limit q.tail_limit = .ok () →
      get_data_from_device_run env s q = (.error .invalidParameters, s, 0, 0))
    ∧ (∀ e, raise_on_threshold_presence qs.head_limit qs.tail_limit = .error e →
      get_data_from_devices_run env netDev s qs = (.error e, s, 0, 0))
    ∧ (iso_instant_matches qs.start_date = false →
       raise_on_threshold_presence qs.head_limit qs.tail_limit = .ok () →
      get_data_from_devices_run env netDev s qs
        = (.error .invalidParameters, s, 0, 0))
    ∧ (iso_instant_matches qs.start_date = true →
       iso_instant_matches qs.end_date = false →
       raise_on_threshold_presence qs.head_limit qs.tail_limit = .ok () →
      get_data_from_devices_run env netDev s qs
        = (.error .invalidParameters, s, 0, 0)) := by
  refine ⟨?_, ?_, ?_, ?_, ?_, ?_⟩
  · intro e he; simp [get_data_from_device_run, he]
  · intro hs ht
    simp [get_data_from_device_run, ht, raise_on_date_ISO_8601_bad_format, hs]
  · intro hs hd ht
    simp [get_data_from_device_run, ht, raise_on_date_ISO_8601_bad_format,
      hs, hd]
  · intro e he; simp [get_data_from_devices_run, he]
  · intro hs ht
    simp [get_data_from_devices_run, ht, raise_on_date_ISO_8601_bad_format, hs]
  · intro hs hd ht
    simp [get_data_from_devices_run, ht, raise_on_date_ISO_8601_bad_format,
      hs, hd]

/-- C8 witness: three concrete invalid calls — both limits present, a
malformed start instant, a malformed end instant — each failing with its
typed error, zero network calls, and an unchanged session. -/
theorem C8_validation_fail_fast_witness :
    get_data_from_device_run sampleDataEnv sampleSession
      { sampleQuery with tail_limit := some 2 }
      = (.error .invalidParameters, sampleSession, 0, 0)
    ∧ get_data_from_device_run sampleDataEnv sampleSession
      { sampleQuery with start_date := "2025-10-03 12:30:00" }
      = (.error .invalidParameters, sampleSession, 0, 0)
    ∧ get_data_from_devices_run sampleDataEnv (fun _ _ _ _ => dictResponse)
      sampleSession
      { devices_id := ["a", "b"], field := "TEMPERATURE_CELSIUS",
        start_date := "2025-10-03T12:30:00Z", end_date := "2025-10-03",
        head_limit := none, tail_limit := none, external_sensor_id := none }
      = (.error .missingParameters, sampleSession, 0, 0) :=
  ⟨(C8_validation_fail_fast sampleDataEnv (fun _ _ _ _ => dictResponse)
      sampleSession { sampleQuery with tail_limit := some 2 }
      { devices_id := [], field := "", start_date := "", end_date := "",
        head_limit := none, tail_limit := none,
        external_sensor_id := none }).1 .invalidParameters rfl,
   (C8_validation_fail_fast sampleDataEnv (fun _ _ _ _ => dictResponse)
      sampleSession { sampleQuery with start_date := "2025-10-03 12:30:00" }
      { devices_id := [], field := "", start_date := "", end_date := "",
        head_limit := none, tail_limit := none,
        external_sensor_id := none }).2.1 rfl rfl,
   (C8_validation_fail_fast sampleDataEnv (fun _ _ _ _ => dictResponse)
      sampleSession sampleQuery
      { devices_id := ["a", "b"], field := "TEMPERATURE_CELSIUS",
        start_date := "2025-10-03T12:30:00Z", end_date := "2025-10-03",
        head_limit := none, tail_limit := none,
        external_sensor_id := none }).2.2.2.1 .missingParameters rfl⟩

/-- Helper: `dsetV` is a plain append when the key is fresh. -/
theorem dsetV_fresh (data : List (String × PyVal)) (k : String) (v : PyVal)
    (h : ∀ p ∈ data, p.1 ≠ k) : dsetV data k v = data ++ [(k, v)] := by
  have hany : data.any (fun p => p.1 = k) = false := by
    rw [List.any_eq_false]
    intro p hp
    simpa using h p hp
  rw [dsetV, hany]
  simp

/-- Helper: the all-devices loop, with every per-device fetch succeeding
and the present ids pairwise distinct, extends the accumulated data by one
entry per record that has an `"id"` key, in order, and issues exactly one
data request per such record. -/
theorem all_devices_loop_spec (net : String → HeaderMap → Nat → Response)
    (token : Option String) (B : String → PyVal)
    (hok : ∀ id, fetch_device_body net token id = .ok (B id)) :
    ∀ (devices : List DeviceRecord) (data : List (String × PyVal)),
    (devices.filterMap (fun d => hget d "id")).Nodup →
    (∀ id ∈ devices.filterMap (fun d => hget d "id"), ∀ p ∈ data, p.1 ≠ id) →
    ∃ l, all_devices_loop net token devices data
        = (.ok l, (devices.filter (fun d => (hget d "id").isSome)).length)
      ∧ l.map Prod.fst
          = data.map Prod.fst ++ devices.filterMap (fun d => hget d "id") := by
  intro devices
  induction devices with
  | nil =>
    intro data _ _
    exact ⟨data, by simp [all_devices_loop], by simp⟩
  | cons d rest ih =>
    intro data hnd hdis
    cases hid : hget d "id" with
    | none =>
      have hfm : (d :: rest).filterMap (fun d => hget d "id")
          = rest.filterMap (fun d => hget d "id") := by
        simp [List.filterMap_cons, hid]
      rw [hfm] at hnd hdis
      obtain ⟨l, h1, h2⟩ := ih data hnd hdis
      refine ⟨l, ?_, ?_⟩
      · rw [all_devices_loop, hid, h1]
        simp [List.filter_cons, hid]
      · rw [h2, hfm]
    | some id =>
      have hfm : (d :: rest).filterMap (fun d => hget d "id")
          = id :: rest.filterMap (fun d => hget d "id") := by
        simp [List.filterMap_cons, hid]
      rw [hfm] at hnd hdis
      rw [List.nodup_cons] at hnd
      have hfresh : ∀ p ∈ data, p.1 ≠ id :=
        hdis id (List.mem_cons_self _ _)
      have hdset := dsetV_fresh data id (B id) hfresh
      have hdis2 : ∀ i ∈ rest.filterMap (fun d => hget d "id"),
          ∀ p ∈ data ++ [(id, B id)], p.1 ≠ i := by
        intro i hi p hp
        rcases List.mem_append.1 hp with h | h
        · exact hdis i (List.mem_cons_of_mem _ hi) p h
        · have hp2 : p = (id, B id) := by simpa using h
          subst hp2
          intro hcon
          subst hcon
          exact hnd.1 hi
      obtain ⟨l, h1, h2⟩ := ih (data ++ [(id, B id)]) hnd.2 hdis2
      refine ⟨l, ?_, ?_⟩
      · rw [all_devices_loop, hid]
        simp only [hok id, hdset, h1]
        simp [List.filter_cons, hid]
      · rw [h2, hfm]
        simp

/-- C9.  Over any device list whose present ids are distinct and whose
per-device fetches succeed, `get_data_from_all_devices`'s device loop
issues exactly one data request per record that has an `"id"` key and none
for records lacking it, and the produced mapping is keyed exactly by those
ids, in order. -/
theorem C9_all_devices_data (net : String → HeaderMap → Nat → Response)
    (token : Option String) (B : String → PyVal) (devices : List DeviceRecord)
    (hok : ∀ id, fetch_device_body net token id = .ok (B id))
    (hnd : (devices.filterMap (fun d => hget d "id")).Nodup) :
    ∃ l, all_devices_loop net token devices []
        = (.ok l, (devices.filter (fun d => (hget d "id").isSome)).length)
      ∧ l.map Prod.fst = devices.filterMap (fun d => hget d "id") := by
  obtain ⟨l, h1, h2⟩ := all_devices_loop_spec net token B hok devices []
    hnd (by intro i _ p hp; simp at hp)
  exact ⟨l, h1, by simpa using h2⟩

/-- C9 witness: over the device list `[{"foo": "bar"}, {"id": "d1"}]`
(with a network answering every data request with a small JSON object),
exactly one data request is issued and the result is keyed only by
`"d1"`. -/
theorem C9_all_devices_data_witness :
    ∃ l, all_devices_loop (fun _ _ _ => dictResponse) (some "tok")
        [[("foo", "bar")], [("id", "d1")]] [] = (.ok l, 1)
      ∧ l.map Prod.fst = ["d1"] := by
  obtain ⟨l, h1, h2⟩ := C9_all_devices_data (fun _ _ _ => dictResponse)
    (some "tok") (fun _ => .dict [("k", "v")])
    [[("foo", "bar")], [("id", "d1")]] (fun _ => rfl) (by simp [hget])
  refine ⟨l, ?_, ?_⟩
  · rw [h1]
    rfl
  · rw [h2]
    rfl

/-- Helper: consuming `n` digits from `p ++ r` succeeds and leaves `r`
when `p` has length `n` and is all digits. -/
theorem takeDigits_append (p r : List Char) (n : Nat) (hl : p.length = n)
    (hd : ∀ c ∈ p, isPyDigit c = true) : takeDigits n (p ++ r) = some r := by
  induction p generalizing n with
  | nil => subst hl; simp [takeDigits]
  | cons c p ih =>
    subst hl
    have hc : isPyDigit c = true := hd c (List.mem_cons_self _ _)
    simp [takeDigits, hc,
      ih p.length rfl (fun x hx => hd x (List.mem_cons_of_mem _ hx))]

/-- Helper: a successful `takeDigits` splits the input into `n` digits
followed by the rest. -/
theorem takeDigits_some (n : Nat) :
    ∀ cs r, takeDigits n cs = some r →
      ∃ p, p.length = n ∧ (∀ c ∈ p, isPyDigit c = true) ∧ cs = p ++ r := by
  induction n with
  | zero =>
    intro cs r h
    have hcs : cs = r := by simpa [takeDigits] using h
    exact ⟨[], rfl, by simp, by simp [hcs]⟩
  | succ n ih =>
    intro cs r h
    cases cs with
    | nil => simp [takeDigits] at h
    | cons c cs =>
      rw [takeDigits] at h
      by_cases hc : isPyDigit c
      · rw [if_pos hc] at h
        obtain ⟨p, hl, hd, hcs⟩ := ih cs r h
        refine ⟨c :: p, by simp [hl], ?_, by simp [hcs]⟩
        intro x hx
        rcases List.mem_cons.1 hx with h1 | h1
        · subst h1; exact hc
        · exact hd x h1
      · rw [if_neg hc] at h
        simp at h

/-- Helper: a successful `expectChar` means the input starts with the
expected literal. -/
theorem expectChar_some (c : Char) (cs r : List Char)
    (h : expectChar c cs = some r) : cs = c :: r := by
  cases cs with
  | nil => simp [expectChar] at h
  | cons d cs =>
    rw [expectChar] at h
    by_cases hd : d = c
    · have hcs : cs = r := by
        rw [if_pos hd] at h
        simpa using h
      simp [hd, hcs]
    · rw [if_neg hd] at h
      simp at h

/-- Helper: `digitsZ` accepts all-digit text followed by a final `Z`. -/
theorem digitsZ_append (f : List Char) (hd : ∀ c ∈ f, isPyDigit c = true) :
    digitsZ (f ++ ['Z']) = true := by
  induction f with
  | nil => simp [digitsZ]
  | cons c f ih =>
    have hc := hd c (List.mem_cons_self _ _)
    have hne : f ++ ['Z'] ≠ [] := by simp
    simp [digitsZ, hne, hc, ih (fun x hx => hd x (List.mem_cons_of_mem _ hx))]

/-- Helper: text accepted by `digitsZ` is all digits followed by a final
`Z`. -/
theorem digitsZ_some :
    ∀ cs, digitsZ cs = true →
      ∃ f, (∀ c ∈ f, isPyDigit c = true) ∧ cs = f ++ ['Z']
  | [], h => by simp [digitsZ] at h
  | c :: cs, h => by
    rw [digitsZ] at h
    by_cases hcs : cs = []
    · subst hcs
      rw [if_pos rfl] at h
      have hc : c = 'Z' := by simpa using h
      exact ⟨[], by simp, by simp [hc]⟩
    · rw [if_neg hcs, Bool.and_eq_true] at h
      obtain ⟨f, hf, hcs2⟩ := digitsZ_some cs h.2
      refine ⟨c :: f, ?_, by simp [hcs2]⟩
      intro x hx
      rcases List.mem_cons.1 hx with h1 | h1
      · subst h1; exact h.1
      · exact hf x h1

/-- Helper: `tailZ` accepts an optional dot-digits fractional part
followed by a final `Z`. -/
theorem tailZ_fracPart (frac : Option (List Char))
    (hf : ∀ f, frac = some f → f ≠ [] ∧ ∀ c ∈ f, isPyDigit c = true) :
    tailZ (fracPart frac ++ ['Z']) = true := by
  cases frac with
  | none => simp [fracPart, tailZ]
  | some f =>
    obtain ⟨hne, hd⟩ := hf f rfl
    cases f with
    | nil => exact absurd rfl hne
    | cons c f =>
      have hc := hd c (List.mem_cons_self _ _)
      have hdz : digitsZ (c :: (f ++ ['Z'])) = true := by
        simpa using digitsZ_append (c :: f) hd
      simp [fracPart, tailZ, hc, hdz]

/-- Helper: text accepted by `tailZ` is an optional nonempty dot-digits
fractional part followed by a final `Z`. -/
theorem tailZ_some (cs : List Char) (h : tailZ cs = true) :
    ∃ frac, (∀ f, frac = some f → f ≠ [] ∧ ∀ c ∈ f, isPyDigit c = true) ∧
      cs = fracPart frac ++ ['Z'] := by
  cases cs with
  | nil => simp [tailZ] at h
  | cons c cs =>
    cases cs with
    | nil =>
      have hc : c = 'Z' := by simpa [tailZ] using h
      exact ⟨none, by simp, by simp [fracPart, hc]⟩
    | cons c2 cs =>
      rw [tailZ] at h
      simp only [Bool.and_eq_true, decide_eq_true_eq] at h
      obtain ⟨hdot, hc2, hdz⟩ := h
      obtain ⟨f, hf, heq⟩ := digitsZ_some (c2 :: cs) hdz
      have hfne : f ≠ [] := by
        intro hnil
        rw [hnil] at heq
        simp at heq
        rw [heq.1] at hc2
        exact absurd hc2 (by decide)
      refine ⟨some f, ?_, ?_⟩
      · intro g hg
        cases hg
        exact ⟨hfne, hf⟩
      · rw [show c :: c2 :: cs = c :: (c2 :: cs) from rfl, heq, hdot]
        simp [fracPart]

/-- Helper: the date-time prefix parser accepts the spec's digit-group
shape and leaves the rest. -/
theorem isoPrefixMatch_append (y mo d h mi sec r : List Char)
    (hy : y.length = 4) (hmo : mo.length = 2) (hd : d.length = 2)
    (hh : h.length = 2) (hmi : mi.length = 2) (hsec : sec.length = 2)
    (dy : ∀ c ∈ y, isPyDigit c = true) (dmo : ∀ c ∈ mo, isPyDigit c = true)
    (dd : ∀ c ∈ d, isPyDigit c = true) (dh : ∀ c ∈ h, isPyDigit c = true)
    (dmi : ∀ c ∈ mi, isPyDigit c = true) (dsec : ∀ c ∈ sec, isPyDigit c = true) :
    isoPrefixMatch (y ++ '-' :: (mo ++ '-' :: (d ++ 'T' :: (h ++ ':' ::
      (mi ++ ':' :: (sec ++ r)))))) = some r := by
  unfold isoPrefixMatch
  rw [takeDigits_append y _ 4 hy dy]
  simp only [Option.bind]
  rw [show expectChar '-' ('-' :: (mo ++ '-' :: (d ++ 'T' :: (h ++ ':' ::
      (mi ++ ':' :: (sec ++ r)))))) = some (mo ++ '-' :: (d ++ 'T' ::
      (h ++ ':' :: (mi ++ ':' :: (sec ++ r))))) from by simp [expectChar]]
  simp only [Option.bind]
  rw [takeDigits_append mo _ 2 hmo dmo]
  simp only [Option.bind]
  rw [show expectChar '-' ('-' :: (d ++ 'T' :: (h ++ ':' ::
      (mi ++ ':' :: (sec ++ r))))) = some (d ++ 'T' ::
      (h ++ ':' :: (mi ++ ':' :: (sec ++ r)))) from by simp [expectChar]]
  simp only [Option.bind]
  rw [takeDigits_append d _ 2 hd dd]
  simp only [Option.bind]
  rw [show expectChar 'T' ('T' :: (h ++ ':' :: (mi ++ ':' :: (sec ++ r))))
      = some (h ++ ':' :: (mi ++ ':' :: (sec ++ r))) from by simp [expectChar]]
  simp only [Option.bind]
  rw [takeDigits_append h _ 2 hh dh]
  simp only [Option.bind]
  rw [show expectChar ':' (':' :: (mi ++ ':' :: (sec ++ r)))
      = some (mi ++ ':' :: (sec ++ r)) from by simp [expectChar]]
  simp only [Option.bind]
  rw [takeDigits_append mi _ 2 hmi dmi]
  simp only [Option.bind]
  rw [show expectChar ':' (':' :: (sec ++ r)) = some (sec ++ r) from by
    simp [expectChar]]
  simp only [Option.bind]
  exact takeDigits_append sec r 2 hsec dsec

/-- Helper: a successful run of the date-time prefix parser decomposes the
input into the spec's digit groups and separators. -/
theorem isoPrefixMatch_some (cs r : List Char)
    (h : isoPrefixMatch cs = some r) :
    ∃ y mo d hh mi sec : List Char,
      y.length = 4 ∧ mo.length = 2 ∧ d.length = 2 ∧ hh.length = 2 ∧
      mi.length = 2 ∧ sec.length = 2 ∧
      (∀ c ∈ y, isPyDigit c = true) ∧ (∀ c ∈ mo, isPyDigit c = true) ∧
      (∀ c ∈ d, isPyDigit c = true) ∧ (∀ c ∈ hh, isPyDigit c = true) ∧
      (∀ c ∈ mi, isPyDigit c = true) ∧ (∀ c ∈ sec, isPyDigit c = true) ∧
      cs = y ++ '-' :: (mo ++ '-' :: (d ++ 'T' :: (hh ++ ':' ::
        (mi ++ ':' :: (sec ++ r))))) := by
  unfold isoPrefixMatch at h
  rcases Option.bind_eq_some.1 h with ⟨a10, h10, hsec'⟩
  rcases Option.bind_eq_some.1 h10 with ⟨a9, h9, hcolon2⟩
  rcases Option.bind_eq_some.1 h9 with ⟨a8, h8, hmi'⟩
  rcases Option.bind_eq_some.1 h8 with ⟨a7, h7, hcolon1⟩
  rcases Option.bind_eq_some.1 h7 with ⟨a6, h6, hh'⟩
  rcases Option.bind_eq_some.1 h6 with ⟨a5, h5, hT⟩
  rcases Option.bind_eq_some.1 h5 with ⟨a4, h4, hd'⟩
  rcases Option.bind_eq_some.1 h4 with ⟨a3, h3, hdash2⟩
  rcases Option.bind_eq_some.1 h3 with ⟨a2, h2, hmo'⟩
  rcases Option.bind_eq_some.1 h2 with ⟨a1, hy', hdash1⟩
  obtain ⟨y, hyl, hyd, hcs⟩ := takeDigits_some 4 cs a1 hy'
  have ha1 := expectChar_some '-' a1 a2 hdash1
  obtain ⟨mo, hmol, hmod, ha2⟩ := takeDigits_some 2 a2 a3 hmo'
  have ha3 := expectChar_some '-' a3 a4 hdash2
  obtain ⟨d, hdl, hdd, ha4⟩ := takeDigits_some 2 a4 a5 hd'
  have ha5 := expectChar_some 'T' a5 a6 hT
  obtain ⟨hh, hhl, hhd, ha6⟩ := takeDigits_some 2 a6 a7 hh'
  have ha7 := expectChar_some ':' a7 a8 hcolon1
  obtain ⟨mi, hmil, hmid, ha8⟩ := takeDigits_some 2 a8 a9 hmi'
  have ha9 := expectChar_some ':' a9 a10 hcolon2
  obtain ⟨sec, hsecl, hsecd, ha10⟩ := takeDigits_some 2 a10 r hsec'
  refine ⟨y, mo, d, hh, mi, sec, hyl, hmol, hdl, hhl, hmil, hsecl,
    hyd, hmod, hdd, hhd, hmid, hsecd, ?_⟩
  rw [hcs, ha1, ha2, ha3, ha4, ha5, ha6, ha7, ha8, ha9, ha10]

/-- Helper: the compiled instant regex accepts a string exactly when it
has the instant skeleton with Unicode decimal digits in every digit
position. -/
theorem iso_instant_matches_iff (s : String) :
    iso_instant_matches s = true ↔ PyIsoInstant s := by
  constructor
  · intro h
    rw [iso_instant_matches] at h
    cases hp : isoPrefixMatch s.data with
    | none => rw [hp] at h; simp at h
    | some rest =>
      rw [hp] at h
      obtain ⟨y, mo, d, hh, mi, sec, hyl, hmol, hdl, hhl, hmil, hsecl,
        hyd, hmod, hdd, hhd, hmid, hsecd, hcs⟩ := isoPrefixMatch_some
          s.data rest hp
      obtain ⟨frac, hfrac, hrest⟩ := tailZ_some rest h
      refine ⟨y, mo, d, hh, mi, sec, frac, hyl, hmol, hdl, hhl, hmil,
        hsecl, hyd, hmod, hdd, hhd, hmid, hsecd, hfrac, ?_⟩
      rw [hcs, hrest]
      simp [List.append_assoc]
  · intro h
    obtain ⟨y, mo, d, hh, mi, sec, frac, hyl, hmol, hdl, hhl, hmil,
      hsecl, hyd, hmod, hdd, hhd, hmid, hsecd, hfrac, hcs⟩ := h
    have hcs2 : s.data = y ++ '-' :: (mo ++ '-' :: (d ++ 'T' :: (hh ++ ':' ::
        (mi ++ ':' :: (sec ++ (fracPart frac ++ ['Z'])))))) := by
      rw [hcs]
      simp [List.append_assoc]
    rw [iso_instant_matches, hcs2,
      isoPrefixMatch_append y mo d hh mi sec (fracPart frac ++ ['Z'])
        hyl hmol hdl hhl hmil hsecl hyd hmod hdd hhd hmid hsecd]
    show tailZ (fracPart frac ++ ['Z']) = true
    exact tailZ_fracPart frac hfrac

/-- Helper: a string of the accepted instant shape ends in `Z`. -/
theorem pyIsoInstant_getLast (s : String) (h : PyIsoInstant s) :
    s.data.getLast? = some 'Z' := by
  obtain ⟨y, mo, d, hh, mi, sec, frac, _, _, _, _, _, _, _, _, _, _, _, _,
    _, hcs⟩ := h
  rw [hcs]
  exact List.getLast?_concat _

/-- Helper: a string of the spec's strict instant shape starts with an
ASCII digit. -/
theorem specIsoInstant_head (s : String) (h : SpecIsoInstant s) :
    ∃ c, s.data.head? = some c ∧ c.isDigit = true := by
  obtain ⟨y, mo, d, hh, mi, sec, frac, hyl, _, _, _, _, _, hyd, _, _, _,
    _, _, _, hcs⟩ := h
  cases y with
  | nil => simp at hyl
  | cons c y2 =>
    refine ⟨c, ?_, hyd c (List.mem_cons_self _ _)⟩
    rw [hcs]
    simp

/-- Helper: every ASCII digit is a Unicode decimal digit (the first
`ndRanges` entry is the ASCII range `48-57`). -/
theorem ascii_digit_isPyDigit (c : Char) (h : c.isDigit = true) :
    isPyDigit c = true := by
  rw [Char.isDigit, Bool.and_eq_true, decide_eq_true_eq,
    decide_eq_true_eq] at h
  rw [isPyDigit]
  apply List.any_eq_true.2
  refine ⟨(48, 57), by decide, ?_⟩
  simp only [Bool.and_eq_true, decide_eq_true_eq]
  exact ⟨h.1, h.2⟩

/-- Helper: the spec's strict ASCII instant shape is included in the
shape the code accepts. -/
theorem specIsoInstant_py (s : String) (h : SpecIsoInstant s) :
    PyIsoInstant s := by
  obtain ⟨y, mo, d, hh, mi, sec, frac, hyl, hmol, hdl, hhl, hmil, hsecl,
    hyd, hmod, hdd, hhd, hmid, hsecd, hfrac, hcs⟩ := h
  refine ⟨y, mo, d, hh, mi, sec, frac, hyl, hmol, hdl, hhl, hmil, hsecl,
    fun c hc => ascii_digit_isPyDigit c (hyd c hc),
    fun c hc => ascii_digit_isPyDigit c (hmod c hc),
    fun c hc => ascii_digit_isPyDigit c (hdd c hc),
    fun c hc => ascii_digit_isPyDigit c (hhd c hc),
    fun c hc => ascii_digit_isPyDigit c (hmid c hc),
    fun c hc => ascii_digit_isPyDigit c (hsecd c hc),
    ?_, hcs⟩
  intro f hf
  obtain ⟨hne, hd⟩ := hfrac f hf
  exact ⟨hne, fun c hc => ascii_digit_isPyDigit c (hd c hc)⟩

/-- C7 (counterexample).  The regex is compiled from a `str` pattern
without `re.ASCII`, so its `\d` matches every Unicode decimal digit: the
validator accepts the Arabic-Indic-digit instant
`\u0662\u0660\u0662\u0665-\u0661\u0660-\u0660\u0663T\u0661\u0662:\u0663\u0660:\u0660\u0660Z`,
which is not of the spec's strict ASCII `YYYY-MM-DDTHH:MM:SS[.fraction]Z`
form — so acceptance is not exactly the strict ISO-8601 form. -/
theorem C7_counterexample :
    raise_on_date_ISO_8601_bad_format "٢٠٢٥-١٠-٠٣T١٢:٣٠:٠٠Z" = .ok ()
    ∧ ¬ SpecIsoInstant "٢٠٢٥-١٠-٠٣T١٢:٣٠:٠٠Z" := by
  refine ⟨rfl, ?_⟩
  intro h
  obtain ⟨c, hc, hd⟩ := specIsoInstant_head _ h
  rw [show ("٢٠٢٥-١٠-٠٣T١٢:٣٠:٠٠Z" : String).data.head? = some '٢' from rfl]
    at hc
  rw [show c = '٢' from (Option.some.inj hc).symm] at hd
  exact absurd hd (by decide)

/-- C7 (amended).  Instant validation accepts a string exactly when it
has the `YYYY-MM-DDTHH:MM:SS[.fraction]Z` skeleton with every digit
position holding any Unicode decimal digit (Python's `\d` on a `str`
pattern), and fails with `InvalidParameters` otherwise; every strict
ASCII-digit ISO-8601 instant is accepted — in particular
`2025-10-03T12:30:00.000Z` and `2025-10-03T12:30:00Z` — while
`2025-10-03 12:30:00` and every string ending in a `+HH:MM`-style
timezone offset (a nonempty all-digit tail after a `+`-introduced group)
are rejected. -/
theorem C7_instant_validation :
    (∀ s : String,
      raise_on_date_ISO_8601_bad_format s = .ok () ↔ PyIsoInstant s)
    ∧ (∀ s : String, SpecIsoInstant s →
        raise_on_date_ISO_8601_bad_format s = .ok ())
    ∧ (∀ s : String, ¬ PyIsoInstant s →
        raise_on_date_ISO_8601_bad_format s = .error .invalidParameters)
    ∧ raise_on_date_ISO_8601_bad_format "2025-10-03T12:30:00.000Z" = .ok ()
    ∧ raise_on_date_ISO_8601_bad_format "2025-10-03T12:30:00Z" = .ok ()
    ∧ raise_on_date_ISO_8601_bad_format "2025-10-03 12:30:00"
        = .error .invalidParameters
    ∧ (∀ (s : String) (pre hh mm : List Char), mm ≠ [] →
        (∀ c ∈ mm, c.isDigit = true) →
        s.data = pre ++ '+' :: hh ++ ':' :: mm →
        raise_on_date_ISO_8601_bad_format s = .error .invalidParameters) := by
  have hmain : ∀ s : String,
      raise_on_date_ISO_8601_bad_format s = .ok () ↔ PyIsoInstant s := by
    intro s
    constructor
    · intro h
      by_cases hm : iso_instant_matches s = true
      · exact (iso_instant_matches_iff s).1 hm
      · rw [raise_on_date_ISO_8601_bad_format, if_neg hm] at h
        exact Except.noConfusion h
    · intro hspec
      have hm := (iso_instant_matches_iff s).2 hspec
      rw [raise_on_date_ISO_8601_bad_format, if_pos hm]
  refine ⟨hmain, ?_, ?_, rfl, rfl, rfl, ?_⟩
  · intro s hspec
    exact (hmain s).2 (specIsoInstant_py s hspec)
  · intro s hns
    by_cases hm : iso_instant_matches s = true
    · exact absurd ((iso_instant_matches_iff s).1 hm) hns
    · rw [raise_on_date_ISO_8601_bad_format, if_neg hm]
  · intro s pre hh mm hne hdig heq
    by_cases hm : iso_instant_matches s = true
    · exfalso
      have hspec := (iso_instant_matches_iff s).1 hm
      have hz := pyIsoInstant_getLast s hspec
      have hz2 : s.data.getLast? = mm.getLast? := by
        rw [heq, List.getLast?_append_cons,
          show (':' :: mm) = [':'] ++ mm from rfl,
          List.getLast?_append_of_ne_nil _ hne]
      rw [hz] at hz2
      have hmem : 'Z' ∈ mm.getLast? := by
        rw [← hz2]
        exact rfl
      obtain ⟨hne2, heq2⟩ := List.mem_getLast?_eq_getLast hmem
      have hzmm : 'Z' ∈ mm := by
        rw [heq2]
        exact List.getLast_mem hne2
      exact absurd (hdig 'Z' hzmm) (by decide)
    · rw [raise_on_date_ISO_8601_bad_format, if_neg hm]

/-- C7 witness: the validator rejects the concrete timezone-offset
instant `2025-10-03T12:30:00+02:00` with `InvalidParameters`. -/
theorem C7_instant_validation_witness :
    raise_on_date_ISO_8601_bad_format "2025-10-03T12:30:00+02:00"
      = .error .invalidParameters :=
  C7_instant_validation.2.2.2.2.2.2 "2025-10-03T12:30:00+02:00"
    ("2025-10-03T12:30:00".data) ['0', '2'] ['0', '0'] (by decide)
    (by decide) (by decide)
